import Mathlib

/-!
# Verification of `UniformGridRandomFieldGenerator`

Shallow embedding of `src/UniformGridRandomFieldGenerator.cpp` (the explicit
instantiations fix `SPACE_DIM ∈ {1,2,3}`; here the dimension is a runtime
field `N` of the state, and the fixed-size `std::array`s become lists whose
length-`N` invariant is carried as hypotheses).

Modelling conventions:
* a C++ `double` is modelled as a rational number `ℚ` (every finite double is
  a rational; bit-for-bit equality of stored doubles becomes equality in `ℚ`);
* the binary cache file is modelled as a `List RawVal` of typed scalar tokens
  in the exact order the bytes are written; native struct padding of the
  header is not observable because `SaveToCache` and `LoadFromCache` use the
  same `RandomFieldCacheHeader` struct in one build;
* the filesystem seen through `FileFinder` is a map from the relative
  filename to the file contents (`none` = no such file / cannot open);
* `Eigen::VectorXd` / `Eigen::MatrixXd` are flat lists of their scalar
  entries in memory order (`.data()`), default-constructed containers being
  empty;
* the `EXCEPT_IF_NOT` macro raising a Chaste `Exception` becomes
  `Except CacheIOError`.
-/

namespace RandomField

/-- A scalar value as it appears in the binary cache stream: a `double`, an
`unsigned`, or a `bool`. -/
inductive RawVal where
  | d (q : ℚ)
  | u (n : ℕ)
  | b (x : Bool)
  deriving DecidableEq, Repr

/-- The member state of `UniformGridRandomFieldGenerator<SPACE_DIM>`:
the template parameter `N = SPACE_DIM` plus the member variables of the
class.  `mEigenvecs` is the flat entry list of the
`total_gridpts × mNumEigenvals` Eigen matrix. -/
structure GenState where
  N : ℕ
  mLowerCorner : List ℚ
  mUpperCorner : List ℚ
  mNumGridPts : List ℕ
  mPeriodicity : List Bool
  mNumEigenvals : ℕ
  mLengthScale : ℚ
  mEigenvals : List ℚ
  mEigenvecs : List ℚ
  deriving DecidableEq, Repr

/-- The member-initializer list of the constructor (lines 55-60): the six
parameters are copied into the members; `mEigenvals` and `mEigenvecs` are
default-constructed (empty) Eigen containers. -/
def initState (N : ℕ) (lowerCorner upperCorner : List ℚ) (numGridPts : List ℕ)
    (periodicity : List Bool) (numEigenvals : ℕ) (lengthScale : ℚ) : GenState :=
  { N := N
    mLowerCorner := lowerCorner
    mUpperCorner := upperCorner
    mNumGridPts := numGridPts
    mPeriodicity := periodicity
    mNumEigenvals := numEigenvals
    mLengthScale := lengthScale
    mEigenvals := []
    mEigenvecs := [] }

/-! ## Fixed-point rendering (`std::fixed << std::setprecision(3)`) -/

/-- Zero-pad a natural number below 1000 to three digits. -/
def pad3 (n : ℕ) : String :=
  if n < 10 then "00" ++ toString n
  else if n < 100 then "0" ++ toString n
  else toString n

/-- Render a nonnegative rational with exactly three digits after the decimal
point, rounding to nearest (the exact tie behaviour of the C++ stream on the
underlying binary double is not observable in any claim). -/
def fixed3Nonneg (q : ℚ) : String :=
  let m : ℕ := (⌊q * 1000 + 1 / 2⌋).toNat
  toString (m / 1000) ++ "." ++ pad3 (m % 1000)

/-- Stream output of a `double` under `std::fixed << std::setprecision(3)`. -/
def fixed3 (q : ℚ) : String :=
  if q < 0 then "-" ++ fixed3Nonneg (-q) else fixed3Nonneg q

/-- Stream output of a `bool` (no `boolalpha`): `1` or `0`. -/
def boolStr (x : Bool) : String := if x then "1" else "0"

/-! ## `GetFilenameFromParams` (lines 102-150)

The `switch (SPACE_DIM)` with unrolled per-component output; the `default`
branch is `NEVER_REACHED`, modelled as `none`. -/

def GetFilenameFromParams (st : GenState) : Option String :=
  match st.N with
  | 1 => some ("CachedRandomFields/" ++ "x_"
      ++ fixed3 (st.mLowerCorner.getD 0 0) ++ "_"
      ++ fixed3 (st.mUpperCorner.getD 0 0) ++ "_"
      ++ toString (st.mNumGridPts.getD 0 0) ++ "_"
      ++ boolStr (st.mPeriodicity.getD 0 false) ++ "_"
      ++ toString st.mNumEigenvals ++ "_"
      ++ fixed3 st.mLengthScale ++ ".rfg")
  | 2 => some ("CachedRandomFields/" ++ "xy_"
      ++ fixed3 (st.mLowerCorner.getD 0 0) ++ "_" ++ fixed3 (st.mLowerCorner.getD 1 0) ++ "_"
      ++ fixed3 (st.mUpperCorner.getD 0 0) ++ "_" ++ fixed3 (st.mUpperCorner.getD 1 0) ++ "_"
      ++ toString (st.mNumGridPts.getD 0 0) ++ "_" ++ toString (st.mNumGridPts.getD 1 0) ++ "_"
      ++ boolStr (st.mPeriodicity.getD 0 false) ++ "_" ++ boolStr (st.mPeriodicity.getD 1 false) ++ "_"
      ++ toString st.mNumEigenvals ++ "_"
      ++ fixed3 st.mLengthScale ++ ".rfg")
  | 3 => some ("CachedRandomFields/" ++ "xyz_"
      ++ fixed3 (st.mLowerCorner.getD 0 0) ++ "_" ++ fixed3 (st.mLowerCorner.getD 1 0) ++ "_"
      ++ fixed3 (st.mLowerCorner.getD 2 0) ++ "_"
      ++ fixed3 (st.mUpperCorner.getD 0 0) ++ "_" ++ fixed3 (st.mUpperCorner.getD 1 0) ++ "_"
      ++ fixed3 (st.mUpperCorner.getD 2 0) ++ "_"
      ++ toString (st.mNumGridPts.getD 0 0) ++ "_" ++ toString (st.mNumGridPts.getD 1 0) ++ "_"
      ++ toString (st.mNumGridPts.getD 2 0) ++ "_"
      ++ boolStr (st.mPeriodicity.getD 0 false) ++ "_" ++ boolStr (st.mPeriodicity.getD 1 false) ++ "_"
      ++ boolStr (st.mPeriodicity.getD 2 false) ++ "_"
      ++ toString st.mNumEigenvals ++ "_"
      ++ fixed3 st.mLengthScale ++ ".rfg")
  | _ => none

/-! ## `GetSquaredDistAtoB` (lines 75-100) -/

/-- Body of the loop over `dim` (lines 83-97): absolute difference, periodic
correction via `std::min`, accumulation of the square. -/
def sqDistStep (st : GenState) (rLocation1 rLocation2 : List ℚ)
    (dist_squared : ℚ) (dim : ℕ) : ℚ :=
  let delta_this_dim := |rLocation2.getD dim 0 - rLocation1.getD dim 0|
  let delta_this_dim :=
    if st.mPeriodicity.getD dim false then
      let domain_width_this_dim := st.mUpperCorner.getD dim 0 - st.mLowerCorner.getD dim 0
      min delta_this_dim (domain_width_this_dim - delta_this_dim)
    else delta_this_dim
  dist_squared + delta_this_dim * delta_this_dim

def GetSquaredDistAtoB (st : GenState) (rLocation1 rLocation2 : List ℚ) : ℚ :=
  (List.range st.N).foldl (sqDistStep st rLocation1 rLocation2) 0

/-! ## Cache codec (`LoadFromCache`, lines 152-179; `SaveToCache`, lines 181-203)

The binary stream is a list of `RawVal` tokens in write order.  A read that
runs off the end of the stream, or that reinterprets bytes of the wrong kind,
leaves unspecified values in the destination buffer (the C++ `read` neither
throws nor zeroes); the model fills such slots with `0`/`false`, and every
content-level claim below assumes a well-formed stream, on which these
defaults are never exercised. -/

/-- Reinterpret one token as a `double` (identity on well-formed data). -/
def valAsD : RawVal → ℚ
  | .d q => q
  | .u _ => 0
  | .b _ => 0

/-- Reinterpret one token as an `unsigned` (identity on well-formed data). -/
def valAsU : RawVal → ℕ
  | .u n => n
  | .d _ => 0
  | .b _ => 0

/-- Reinterpret one token as a `bool` (identity on well-formed data). -/
def valAsB : RawVal → Bool
  | .b x => x
  | .d _ => false
  | .u _ => false

/-- Read `n` doubles from the stream, returning the values and the rest. -/
def readDs : ℕ → List RawVal → List ℚ × List RawVal
  | 0, s => ([], s)
  | n + 1, [] => (List.replicate (n + 1) 0, [])
  | n + 1, v :: s =>
    let r := readDs n s
    (valAsD v :: r.1, r.2)

/-- Read `n` unsigneds from the stream. -/
def readUs : ℕ → List RawVal → List ℕ × List RawVal
  | 0, s => ([], s)
  | n + 1, [] => (List.replicate (n + 1) 0, [])
  | n + 1, v :: s =>
    let r := readUs n s
    (valAsU v :: r.1, r.2)

/-- Read `n` bools from the stream. -/
def readBs : ℕ → List RawVal → List Bool × List RawVal
  | 0, s => ([], s)
  | n + 1, [] => (List.replicate (n + 1) false, [])
  | n + 1, v :: s =>
    let r := readBs n s
    (valAsB v :: r.1, r.2)

/-- The `RandomFieldCacheHeader<SPACE_DIM>` struct: the six parameter fields
in declaration order. -/
structure CacheHeader where
  mLowerCorner : List ℚ
  mUpperCorner : List ℚ
  mNumGridPts : List ℕ
  mPeriodicity : List Bool
  mNumEigenvals : ℕ
  mLengthScale : ℚ
  deriving DecidableEq, Repr

/-- Model of `input_file.read((char*) &header, sizeof(RandomFieldCacheHeader<SPACE_DIM>))`:
the header fields are consumed from the stream in struct order. -/
def readHeader (N : ℕ) (s : List RawVal) : CacheHeader × List RawVal :=
  let rlc := readDs N s
  let ruc := readDs N rlc.2
  let rgp := readUs N ruc.2
  let rpe := readBs N rgp.2
  let rne := readUs 1 rpe.2
  let rls := readDs 1 rne.2
  (⟨rlc.1, ruc.1, rgp.1, rpe.1, rne.1.getD 0 0, rls.1.getD 0 0⟩, rls.2)

/-- The header bytes written by `SaveToCache` (lines 190-199): the current
member values in struct field order. -/
def headerStream (h : CacheHeader) : List RawVal :=
  h.mLowerCorner.map .d ++ h.mUpperCorner.map .d ++ h.mNumGridPts.map .u
    ++ h.mPeriodicity.map .b ++ [.u h.mNumEigenvals, .d h.mLengthScale]

/-- The header struct assembled from the current members (lines 190-196). -/
def headerOf (st : GenState) : CacheHeader :=
  ⟨st.mLowerCorner, st.mUpperCorner, st.mNumGridPts, st.mPeriodicity,
    st.mNumEigenvals, st.mLengthScale⟩

/-- Model of `std::accumulate(mNumGridPts.begin(), mNumGridPts.end(), 1u, std::multiplies)`
(line 170). -/
def totalGridPts (gridPts : List ℕ) : ℕ :=
  gridPts.foldl (· * ·) 1

/-- Body of `LoadFromCache` after the file is open (lines 160-178): read the
header, overwrite the six members, resize the eigen containers from the
loaded values, then read `mNumEigenvals` doubles and
`total_gridpts * mNumEigenvals` doubles. -/
def loadOpen (st : GenState) (s : List RawVal) : GenState :=
  let rh := readHeader st.N s
  let header := rh.1
  let st1 := { st with
    mLowerCorner := header.mLowerCorner
    mUpperCorner := header.mUpperCorner
    mNumGridPts := header.mNumGridPts
    mPeriodicity := header.mPeriodicity
    mNumEigenvals := header.mNumEigenvals
    mLengthScale := header.mLengthScale }
  let total_gridpts := totalGridPts st1.mNumGridPts
  let rev := readDs st1.mNumEigenvals rh.2
  let rvec := readDs (total_gridpts * st1.mNumEigenvals) rev.2
  { st1 with mEigenvals := rev.1, mEigenvecs := rvec.1 }

/-- The Chaste `Exception` thrown by `EXCEPT_IF_NOT(file.is_open())`. -/
inductive CacheIOError where
  | cannotOpen
  deriving DecidableEq, Repr

/-- Model of `LoadFromCache` (lines 152-179): `none` models a path that cannot be
opened for reading, in which case `EXCEPT_IF_NOT` throws; otherwise the open
file is read via `loadOpen`. -/
def LoadFromCache (st : GenState) (file : Option (List RawVal)) :
    Except CacheIOError GenState :=
  match file with
  | none => .error .cannotOpen
  | some s => .ok (loadOpen st s)

/-- The bytes written by `SaveToCache` once the file is open (lines 199-201):
header, then `mEigenvals.size()` doubles, then `mEigenvecs.size()` doubles. -/
def saveStream (st : GenState) : List RawVal :=
  headerStream (headerOf st) ++ st.mEigenvals.map .d ++ st.mEigenvecs.map .d

/-- Model of `SaveToCache` (lines 181-203): `canOpen = false` models a path that
cannot be opened for writing, in which case `EXCEPT_IF_NOT` throws; otherwise
the written file contents are returned. -/
def SaveToCache (st : GenState) (canOpen : Bool) :
    Except CacheIOError (List RawVal) :=
  if canOpen then .ok (saveStream st) else .error .cannotOpen

/-- Returns `true` exactly on the `.error` branch of an `Except`. -/
def isErr {ε α : Type} : Except ε α → Bool
  | .error _ => true
  | .ok _ => false

/-! ## The constructor (lines 48-73)

`Fs` models the `FileFinder` view of the output directory: contents of the
file at each relative path, `none` when `Exists()` is false.  The
constructor never writes (its `else` branch is empty and it never calls
`SaveToCache`), so it returns the state together with the unchanged
filesystem; the `NEVER_REACHED` default of the filename switch is `none`. -/

def Fs : Type := String → Option (List RawVal)

def UniformGridRandomFieldGenerator (N : ℕ) (lowerCorner upperCorner : List ℚ)
    (numGridPts : List ℕ) (periodicity : List Bool) (numEigenvals : ℕ)
    (lengthScale : ℚ) (fs : Fs) : Option (GenState × Fs) :=
  let st := initState N lowerCorner upperCorner numGridPts periodicity
    numEigenvals lengthScale
  match GetFilenameFromParams st with
  | none => none
  | some fname =>
    match fs fname with
    | some contents => some (loadOpen st contents, fs)
    | none => some (st, fs)

/-! ## Spec-side definitions (for refinement comparisons only)

These follow the words of the specification, to be compared against the
embeddings above; they are not translations of the source. -/

/-- The dimension-tagged prefix of the spec including the separating underscore:
`"x_"`, `"xy_"`, `"xyz_"` for N = 1, 2, 3. -/
def dimTag : ℕ → String
  | 1 => "x_"
  | 2 => "xy_"
  | 3 => "xyz_"
  | _ => ""

/-- The ordered field list of the claimed filename key with EVERY numeric
field (including the integer-valued `numGridPts` components and
`numEigenvals`) rendered at 3 decimal digits of fixed-point precision, as
claim C4 states it; periodicity flags print as `0`/`1`. -/
def fieldsAllFixed3 (st : GenState) : List String :=
  st.mLowerCorner.map fixed3 ++ st.mUpperCorner.map fixed3
    ++ st.mNumGridPts.map (fun n => fixed3 (n : ℚ))
    ++ st.mPeriodicity.map boolStr
    ++ [fixed3 (st.mNumEigenvals : ℚ), fixed3 st.mLengthScale]

/-- The filename of claim C4, as stated: prefix, every numeric field at 3
decimals, underscore separators, `.rfg` extension. -/
def filenameAllFixed3 (st : GenState) : String :=
  "CachedRandomFields/" ++ dimTag st.N
    ++ String.intercalate "_" (fieldsAllFixed3 st) ++ ".rfg"

/-- The ordered field list of the amended filename key: only the
floating-point fields (corner components, `lengthScale`) carry 3 decimal
digits; integer fields print as plain integers and flags as `0`/`1`. -/
def fieldsSpec (st : GenState) : List String :=
  st.mLowerCorner.map fixed3 ++ st.mUpperCorner.map fixed3
    ++ st.mNumGridPts.map toString
    ++ st.mPeriodicity.map boolStr
    ++ [toString st.mNumEigenvals, fixed3 st.mLengthScale]

/-- The amended claim C4 filename. -/
def filenameSpec (st : GenState) : String :=
  "CachedRandomFields/" ++ dimTag st.N
    ++ String.intercalate "_" (fieldsSpec st) ++ ".rfg"

/-- The per-axis delta of the spec: `delta = |p2[d]-p1[d]|`, replaced by
`min(delta, width[d]-delta)` when `periodicity[d]` is set. -/
def specDelta (st : GenState) (p1 p2 : List ℚ) (d : ℕ) : ℚ :=
  let delta := |p2.getD d 0 - p1.getD d 0|
  if st.mPeriodicity.getD d false then
    min delta ((st.mUpperCorner.getD d 0 - st.mLowerCorner.getD d 0) - delta)
  else delta

/-- The squared distance of the spec: `delta^2` accumulated across axes. -/
def sqDistSpec (st : GenState) (p1 p2 : List ℚ) : ℚ :=
  ((List.range st.N).map fun d => specDelta st p1 p2 d ^ 2).sum

/-- Well-formedness of a generator state: the per-axis arrays have the
compile-time length `N` (automatic for `std::array` in the C++), and the
eigen containers have the sizes the class invariant prescribes. -/
def WellFormed (st : GenState) : Prop :=
  st.mLowerCorner.length = st.N ∧ st.mUpperCorner.length = st.N ∧
    st.mNumGridPts.length = st.N ∧ st.mPeriodicity.length = st.N ∧
    st.mEigenvals.length = st.mNumEigenvals ∧
    st.mEigenvecs.length = totalGridPts st.mNumGridPts * st.mNumEigenvals

/-! ## Concrete fixtures (used to instantiate theorems with hypotheses) -/

/-- A well-formed `N = 1` cached state whose parameters differ from the
constructor arguments of the warm-path witness. -/
def warmCached : GenState := ⟨1, [5], [7], [2], [true], 1, 3, [1], [2, 4]⟩

/-- The cache key derived from the warm-path witness constructor
arguments `N = 1`, corners `0`/`1`, `4` grid points, no periodicity, one
eigenvalue, length scale `2`. -/
def warmFname : String := "CachedRandomFields/x_0.000_1.000_4_0_1_2.000.rfg"

/-- A filesystem holding exactly one cache file: `warmCached` saved under
`warmFname`. -/
def warmFs : Fs := fun s => if s = warmFname then some (saveStream warmCached) else none

/-- A well-formed `N = 2` state with non-trivial eigen data, for the
round-trip witness. -/
def rtState : GenState :=
  ⟨2, [0, 1], [2, 3], [2, 2], [true, false], 2, 5, [1, 2], [1, 2, 3, 4, 5, 6, 7, 8]⟩

/-! ## Helper lemmas -/

theorem string_append_assoc (a b c : String) : a ++ b ++ c = a ++ (b ++ c) := by
  cases a; cases b; cases c
  show String.mk _ = String.mk _
  simp [String.append, List.append_assoc]

theorem readDs_append (xs : List ℚ) (rest : List RawVal) :
    readDs xs.length (xs.map .d ++ rest) = (xs, rest) := by
  induction xs with
  | nil => rfl
  | cons a t ih => simp [readDs, valAsD, ih]

theorem readUs_append (xs : List ℕ) (rest : List RawVal) :
    readUs xs.length (xs.map .u ++ rest) = (xs, rest) := by
  induction xs with
  | nil => rfl
  | cons a t ih => simp [readUs, valAsU, ih]

theorem readBs_append (xs : List Bool) (rest : List RawVal) :
    readBs xs.length (xs.map .b ++ rest) = (xs, rest) := by
  induction xs with
  | nil => rfl
  | cons a t ih => simp [readBs, valAsB, ih]

theorem readDs_len (n : ℕ) (xs : List ℚ) (h : xs.length = n) (rest : List RawVal) :
    readDs n (xs.map .d ++ rest) = (xs, rest) := h ▸ readDs_append xs rest

theorem readUs_len (n : ℕ) (xs : List ℕ) (h : xs.length = n) (rest : List RawVal) :
    readUs n (xs.map .u ++ rest) = (xs, rest) := h ▸ readUs_append xs rest

theorem readBs_len (n : ℕ) (xs : List Bool) (h : xs.length = n) (rest : List RawVal) :
    readBs n (xs.map .b ++ rest) = (xs, rest) := h ▸ readBs_append xs rest

/-- Reading back a serialized header consumes exactly the header tokens and
reproduces every field. -/
theorem readHeader_headerStream (hd : CacheHeader) (rest : List RawVal) (N : ℕ)
    (h1 : hd.mLowerCorner.length = N) (h2 : hd.mUpperCorner.length = N)
    (h3 : hd.mNumGridPts.length = N) (h4 : hd.mPeriodicity.length = N) :
    readHeader N (headerStream hd ++ rest) = (hd, rest) := by
  obtain ⟨lc, uc, gp, pe, ne, ls⟩ := hd
  simp only at h1 h2 h3 h4
  simp only [readHeader, headerStream, List.append_assoc, List.cons_append,
    List.nil_append, readDs_len N lc h1, readDs_len N uc h2, readUs_len N gp h3,
    readBs_len N pe h4]
  simp [readUs, readDs, valAsU, valAsD]

/-- Round-trip of the cache codec at the level of the raw stream: loading
the bytes written by `SaveToCache` into any instance of the same dimension
reproduces the saved state exactly. -/
theorem loadOpen_saveStream (st0 st : GenState) (hN : st0.N = st.N)
    (hwf : WellFormed st) :
    loadOpen st0 (saveStream st) = st := by
  obtain ⟨h1, h2, h3, h4, h5, h6⟩ := hwf
  obtain ⟨N, lc, uc, gp, pe, ne, ls, ev, evec⟩ := st
  simp only at h1 h2 h3 h4 h5 h6 hN
  have hev : ∀ rest, readDs ne (ev.map .d ++ rest) = (ev, rest) := readDs_len ne ev h5
  have hevec : readDs (totalGridPts gp * ne) (evec.map .d ++ []) = (evec, []) :=
    readDs_len _ evec h6 []
  simp only [loadOpen, saveStream, headerOf, List.append_assoc, hN,
    readHeader_headerStream ⟨lc, uc, gp, pe, ne, ls⟩ _ N h1 h2 h3 h4, hev,
    List.append_nil] at hevec ⊢
  simp [hevec]

/-- Two lists with equal images under `f` have equal images of every
defaulted access. -/
theorem map_getD {α β : Type} (f : α → β) (d : α) (l1 l2 : List α)
    (h : l1.map f = l2.map f) : ∀ i, f (l1.getD i d) = f (l2.getD i d) := by
  induction l1 generalizing l2 with
  | nil =>
    cases l2 with
    | nil => intro i; rfl
    | cons b t => simp at h
  | cons a t ih =>
    cases l2 with
    | nil => simp at h
    | cons b t2 =>
      simp only [List.map_cons, List.cons.injEq] at h
      intro i
      cases i with
      | zero => simpa using h.1
      | succ j => simpa using ih t2 h.2 j

/-- The loop body of `GetSquaredDistAtoB` adds exactly the square of the
per-axis delta of the spec. -/
theorem sqDistStep_specDelta (st : GenState) (p1 p2 : List ℚ) (acc : ℚ) (d : ℕ) :
    sqDistStep st p1 p2 acc d = acc + specDelta st p1 p2 d ^ 2 := by
  simp only [sqDistStep, specDelta, pow_two]

theorem foldl_sqDistStep (st : GenState) (p1 p2 : List ℚ) (l : List ℕ) (init : ℚ) :
    l.foldl (sqDistStep st p1 p2) init
      = init + (l.map fun d => specDelta st p1 p2 d ^ 2).sum := by
  induction l generalizing init with
  | nil => simp
  | cons a t ih => simp [List.foldl_cons, sqDistStep_specDelta, ih, add_assoc]

/-! ## Claim theorems -/

/-- Claim C1 (code evaluation at the failing input): at the end-to-end
example parameters of the spec with no cache file present, the constructor
neither computes eigen data nor writes the cache: the eigen containers of
the resulting instance are empty and the filesystem is returned unchanged,
contradicting the claim that a cold construction computes the EigenPairs
and saves them before the instance is ready. -/
theorem claim1_cold_path_code_eval :
    UniformGridRandomFieldGenerator 2 [0, 0] [1, 1] [3, 3] [false, false] 4 (1/2)
        (fun _ => none)
      = some (⟨2, [0, 0], [1, 1], [3, 3], [false, false], 4, 1/2, [], []⟩,
          fun _ => none) := rfl

/-- Claim C2: when the filesystem holds a cache file under the key derived
from the constructor parameters, construction loads that record and the
loaded DomainSpec, SpectralTruncation and EigenPairs exactly replace the
constructor-supplied values: the resulting instance equals the cached state,
regardless of how the cached parameters differ from the arguments. -/
theorem claim2_warm_path_override (N : ℕ) (lc uc : List ℚ) (gp : List ℕ)
    (pe : List Bool) (ne : ℕ) (ls : ℚ) (fs : Fs) (fname : String)
    (cached : GenState)
    (hf : GetFilenameFromParams (initState N lc uc gp pe ne ls) = some fname)
    (hfs : fs fname = some (saveStream cached))
    (hN : cached.N = N)
    (hwf : WellFormed cached) :
    UniformGridRandomFieldGenerator N lc uc gp pe ne ls fs = some (cached, fs) := by
  simp only [UniformGridRandomFieldGenerator, hf, hfs]
  rw [loadOpen_saveStream _ cached (by simpa [initState] using hN.symm) hwf]

/-- Claim C2 witness: constructing with corners `0`/`1`, `4` grid points,
no periodicity, length scale `2` while `warmFs` caches `warmCached` (whose
every parameter differs) yields exactly `warmCached`. -/
theorem claim2_warm_path_override_witness :
    UniformGridRandomFieldGenerator 1 [0] [1] [4] [false] 1 2 warmFs
      = some (warmCached, warmFs) :=
  claim2_warm_path_override 1 [0] [1] [4] [false] 1 2 warmFs warmFname warmCached
    (by with_unfolding_all decide) (by simp [warmFs]) rfl
    ⟨rfl, rfl, rfl, rfl, rfl, rfl⟩

/-- Claim C3: for every well-formed state and every dimension `N ∈ {1,2,3}`,
loading the cache file written by `SaveToCache` into an instance of the same
dimension reproduces the parameters and the eigenvalues/eigenvectors exactly
(same rationals modelling the same doubles, in the same order). -/
theorem claim3_cache_round_trip (st st0 : GenState) (out : List RawVal)
    (hN : st0.N = st.N) (hdim : st.N = 1 ∨ st.N = 2 ∨ st.N = 3)
    (hwf : WellFormed st)
    (hsave : SaveToCache st true = .ok out) :
    LoadFromCache st0 (some out) = .ok st := by
  have hout : saveStream st = out := by simpa [SaveToCache] using hsave
  simp [LoadFromCache, ← hout, loadOpen_saveStream st0 st hN hwf]

/-- Claim C3 witness: the round trip at the concrete `N = 2` state
`rtState`. -/
theorem claim3_cache_round_trip_witness :
    LoadFromCache (initState 2 [] [] [] [] 0 0) (some (saveStream rtState))
      = .ok rtState :=
  claim3_cache_round_trip rtState (initState 2 [] [] [] [] 0 0) (saveStream rtState)
    rfl (by decide) ⟨rfl, rfl, rfl, rfl, rfl, rfl⟩ rfl

/-- Claim C5: `GetSquaredDistAtoB` is symmetric in its two locations. -/
theorem claim5_squared_dist_symm (st : GenState) (a b : List ℚ) :
    GetSquaredDistAtoB st a b = GetSquaredDistAtoB st b a :=
  List.foldl_ext _ _ 0 fun acc d _ => by
    simp [sqDistStep, abs_sub_comm]

/-- Claim C6 counterexample: on the periodic unit axis (`W = 1`) with
`ε = 3/4`, the points `0` and `W - ε` yield squared distance `(W-ε)²`, not
`ε²` — the "in particular" instance of the claim is false for `ε > W/2`. -/
theorem claim6_counterexample :
    GetSquaredDistAtoB (initState 1 [0] [1] [2] [true] 1 1) [0] [1 - 3/4]
        = (1 - 3/4 : ℚ) ^ 2 ∧
      GetSquaredDistAtoB (initState 1 [0] [1] [2] [true] 1 1) [0] [1 - 3/4]
        ≠ (3/4 : ℚ) ^ 2 := by
  constructor <;> with_unfolding_all decide

/-- Claim C6 (amended): for every state and pair of points,
`GetSquaredDistAtoB` accumulates `delta²` across axes with the periodic
replacement `min(delta, width - delta)`; and on a 1-D periodic axis of width
`W`, points at `0` and `W - ε` yield squared distance `ε²` whenever
`0 ≤ ε ≤ W - ε` (i.e. `ε` is at most half the width; for larger `ε` the code
returns `(W-ε)²`). -/
theorem claim6_periodic_wrap_amended :
    (∀ (st : GenState) (p1 p2 : List ℚ),
        GetSquaredDistAtoB st p1 p2 = sqDistSpec st p1 p2) ∧
      (∀ W ε : ℚ, 0 ≤ ε → ε ≤ W - ε →
        GetSquaredDistAtoB (initState 1 [0] [W] [2] [true] 1 1) [0] [W - ε]
          = ε ^ 2) := by
  constructor
  · intro st p1 p2
    simpa [sqDistSpec] using
      foldl_sqDistStep st p1 p2 (List.range st.N) 0
  · intro W ε h0 h1
    simp only [GetSquaredDistAtoB, initState, show List.range 1 = [0] from rfl,
      List.foldl_cons, List.foldl_nil, sqDistStep, List.getD_cons_zero, sub_zero,
      if_true]
    have habs : |W - ε| = W - ε := abs_of_nonneg (by linarith)
    have hw : W - (W - ε) = ε := by ring
    rw [habs, hw, min_eq_right h1]
    ring

/-- Claim C6 witness: the amended statement at `W = 1`, `ε = 1/10` for the
wrap instance, and at a concrete state and point pair for the per-axis
formula. -/
theorem claim6_periodic_wrap_amended_witness :
    GetSquaredDistAtoB (initState 1 [0] [3] [5] [true] 2 7) [1] [2]
        = sqDistSpec (initState 1 [0] [3] [5] [true] 2 7) [1] [2] ∧
      GetSquaredDistAtoB (initState 1 [0] [1] [2] [true] 1 1) [0] [1 - 1/10]
        = (1/10 : ℚ) ^ 2 :=
  ⟨claim6_periodic_wrap_amended.1 (initState 1 [0] [3] [5] [true] 2 7) [1] [2],
    claim6_periodic_wrap_amended.2 1 (1/10) (by norm_num) (by norm_num)⟩

/-- Claim C7: `LoadFromCache` on an open stream reads the fixed-size header
into the parameter fields, then exactly `numEigenvals` doubles into the
eigenvalue sequence and exactly `totalGridPoints * numEigenvals` doubles
(with `totalGridPoints` the product of the loaded grid sizes) into the
eigenvector matrix, in that order, with no length prefixes or delimiters;
any further bytes are ignored. -/
theorem claim7_load_layout (st0 : GenState) (hd : CacheHeader) (evs evecs : List ℚ)
    (extra : List RawVal)
    (h1 : hd.mLowerCorner.length = st0.N) (h2 : hd.mUpperCorner.length = st0.N)
    (h3 : hd.mNumGridPts.length = st0.N) (h4 : hd.mPeriodicity.length = st0.N)
    (h5 : evs.length = hd.mNumEigenvals)
    (h6 : evecs.length = totalGridPts hd.mNumGridPts * hd.mNumEigenvals) :
    loadOpen st0 (headerStream hd ++ (evs.map .d ++ (evecs.map .d ++ extra)))
      = { N := st0.N
          mLowerCorner := hd.mLowerCorner
          mUpperCorner := hd.mUpperCorner
          mNumGridPts := hd.mNumGridPts
          mPeriodicity := hd.mPeriodicity
          mNumEigenvals := hd.mNumEigenvals
          mLengthScale := hd.mLengthScale
          mEigenvals := evs
          mEigenvecs := evecs } := by
  simp only [loadOpen, readHeader_headerStream hd _ st0.N h1 h2 h3 h4,
    readDs_len hd.mNumEigenvals evs h5, readDs_len _ evecs h6]

/-- Claim C7 witness: the layout theorem at a concrete `N = 1` header with
one eigenvalue, two grid points and trailing garbage after the payload. -/
theorem claim7_load_layout_witness :
    loadOpen (initState 1 [] [] [] [] 0 0)
        (headerStream ⟨[0], [1], [2], [true], 1, 3⟩
          ++ ([(4 : ℚ)].map .d ++ ([(5 : ℚ), 6].map .d ++ [.u 9])))
      = { N := 1
          mLowerCorner := [0]
          mUpperCorner := [1]
          mNumGridPts := [2]
          mPeriodicity := [true]
          mNumEigenvals := 1
          mLengthScale := 3
          mEigenvals := [4]
          mEigenvecs := [5, 6] } :=
  claim7_load_layout (initState 1 [] [] [] [] 0 0) ⟨[0], [1], [2], [true], 1, 3⟩
    [4] [5, 6] [.u 9] rfl rfl rfl rfl rfl (by decide)

/-- Claim C9: `LoadFromCache` fails with the IO exception exactly when the
file cannot be opened for reading, and `SaveToCache` fails exactly when the
path cannot be opened for writing; in all other cases the operation
succeeds (no retry, no silent recovery). -/
theorem claim9_ioerror_iff (st : GenState) :
    (∀ file, isErr (LoadFromCache st file) = true ↔ file = none) ∧
      (∀ canOpen, isErr (SaveToCache st canOpen) = true ↔ canOpen = false) := by
  constructor
  · intro file
    cases file <;> simp [LoadFromCache, isErr]
  · intro canOpen
    cases canOpen <;> simp [SaveToCache, isErr]

/-- Claim C10: when no cache file matches the derived key, the constructor
leaves the six stored parameters exactly equal to its arguments, computes no
eigen data (both eigen containers are empty), and writes nothing: the
filesystem is returned unchanged. -/
theorem claim10_cold_path_frame (N : ℕ) (lc uc : List ℚ) (gp : List ℕ)
    (pe : List Bool) (ne : ℕ) (ls : ℚ) (fs : Fs) (fname : String)
    (hf : GetFilenameFromParams (initState N lc uc gp pe ne ls) = some fname)
    (hfs : fs fname = none) :
    UniformGridRandomFieldGenerator N lc uc gp pe ne ls fs
      = some (⟨N, lc, uc, gp, pe, ne, ls, [], []⟩, fs) := by
  simp only [UniformGridRandomFieldGenerator, hf, hfs]
  rfl

/-- Claim C10 witness: the cold-path frame at the warm-path witness
parameters over the empty filesystem. -/
theorem claim10_cold_path_frame_witness :
    UniformGridRandomFieldGenerator 1 [0] [1] [4] [false] 1 2 (fun _ => none)
      = some (⟨1, [0], [1], [4], [false], 1, 2, [], []⟩, fun _ => none) :=
  claim10_cold_path_frame 1 [0] [1] [4] [false] 1 2 (fun _ => none) warmFname
    (by with_unfolding_all decide) rfl

/-- Claim C8: the cache key is deterministic — equal parameter sets derive
equal filenames — and two parameter sets whose double-valued fields all
render to the same 3-decimal fixed-point strings (integer and boolean
fields being equal outright) derive the same filename: they collide on the
same cache key. -/
theorem claim8_key_fingerprint :
    (∀ s t : GenState, s = t → GetFilenameFromParams s = GetFilenameFromParams t) ∧
      (∀ s t : GenState, s.N = t.N →
        s.mLowerCorner.map fixed3 = t.mLowerCorner.map fixed3 →
        s.mUpperCorner.map fixed3 = t.mUpperCorner.map fixed3 →
        s.mNumGridPts = t.mNumGridPts → s.mPeriodicity = t.mPeriodicity →
        s.mNumEigenvals = t.mNumEigenvals →
        fixed3 s.mLengthScale = fixed3 t.mLengthScale →
        GetFilenameFromParams s = GetFilenameFromParams t) := by
  refine ⟨fun s t h => h ▸ rfl, fun s t hN hlc huc hgp hpe hne hls => ?_⟩
  obtain ⟨N1, lc1, uc1, gp1, pe1, ne1, ls1, ev1, evec1⟩ := s
  obtain ⟨N2, lc2, uc2, gp2, pe2, ne2, ls2, ev2, evec2⟩ := t
  simp only at hN hlc huc hgp hpe hne hls
  subst hN hgp hpe hne
  have elc := map_getD fixed3 0 lc1 lc2 hlc
  have euc := map_getD fixed3 0 uc1 uc2 huc
  simp only [List.getD_eq_getElem?_getD] at elc euc
  rcases N1 with _ | _ | _ | _ | n <;>
    simp [GetFilenameFromParams, elc, euc, hls]

/-- Claim C8 witness: length scales `5001/10000` and `1/2` both render as
`0.500`, and the derived filenames coincide. -/
theorem claim8_key_fingerprint_witness :
    GetFilenameFromParams (initState 1 [0] [1] [3] [false] 2 (5001/10000))
      = GetFilenameFromParams (initState 1 [0] [1] [3] [false] 2 (1/2)) :=
  claim8_key_fingerprint.2
    (initState 1 [0] [1] [3] [false] 2 (5001/10000))
    (initState 1 [0] [1] [3] [false] 2 (1/2))
    rfl rfl rfl rfl rfl rfl (by with_unfolding_all decide)

/-- Claim C4 counterexample: at the end-to-end example
parameters taken from the spec itself, the code renders the `numGridPts` components as `3`, not
`3.000`: the filename produced by the code differs from the claimed format
in which every numeric field carries exactly 3 decimal digits. -/
theorem claim4_counterexample :
    GetFilenameFromParams (initState 2 [0, 0] [1, 1] [3, 3] [false, false] 4 (1/2))
        = some "CachedRandomFields/xy_0.000_0.000_1.000_1.000_3_3_0_0_4_0.500.rfg" ∧
      filenameAllFixed3 (initState 2 [0, 0] [1, 1] [3, 3] [false, false] 4 (1/2))
        = "CachedRandomFields/xy_0.000_0.000_1.000_1.000_3.000_3.000_0_0_4.000_0.500.rfg" ∧
      GetFilenameFromParams (initState 2 [0, 0] [1, 1] [3, 3] [false, false] 4 (1/2))
        ≠ some (filenameAllFixed3 (initState 2 [0, 0] [1, 1] [3, 3] [false, false] 4 (1/2))) := by
  refine ⟨?_, ?_, ?_⟩ <;> with_unfolding_all decide

/-- Claim C4 (amended): for every parameter set of dimension `N ∈ {1,2,3}`,
the cache filename is the dimension-tagged prefix (`x_`/`xy_`/`xyz_`)
followed in fixed order by the lowerCorner components, upperCorner
components, numGridPts components, periodicity flags, numEigenvals and
lengthScale, separated by underscores with the `.rfg` extension — where the
floating-point fields (corner components, lengthScale) are rendered with
exactly 3 decimal digits of fixed-point precision, while the integer fields
(`numGridPts`, `numEigenvals`) print as plain integers and the periodicity
flags as `0`/`1`. -/
theorem claim4_filename_format_amended (st : GenState)
    (hdim : st.N = 1 ∨ st.N = 2 ∨ st.N = 3)
    (h1 : st.mLowerCorner.length = st.N) (h2 : st.mUpperCorner.length = st.N)
    (h3 : st.mNumGridPts.length = st.N) (h4 : st.mPeriodicity.length = st.N) :
    GetFilenameFromParams st = some (filenameSpec st) := by
  obtain ⟨N, lc, uc, gp, pe, ne, ls, ev, evec⟩ := st
  simp only at hdim h1 h2 h3 h4 ⊢
  rcases hdim with hN | hN | hN <;> subst hN
  · rcases lc with _ | ⟨a0, _ | ⟨a1, lc⟩⟩ <;> simp at h1
    rcases uc with _ | ⟨b0, _ | ⟨b1, uc⟩⟩ <;> simp at h2
    rcases gp with _ | ⟨g0, _ | ⟨g1, gp⟩⟩ <;> simp at h3
    rcases pe with _ | ⟨p0, _ | ⟨p1, pe⟩⟩ <;> simp at h4
    simp [GetFilenameFromParams, filenameSpec, fieldsSpec, dimTag,
      String.intercalate, String.intercalate.go, string_append_assoc]
  · rcases lc with _ | ⟨a0, _ | ⟨a1, _ | ⟨a2, lc⟩⟩⟩ <;> simp at h1
    rcases uc with _ | ⟨b0, _ | ⟨b1, _ | ⟨b2, uc⟩⟩⟩ <;> simp at h2
    rcases gp with _ | ⟨g0, _ | ⟨g1, _ | ⟨g2, gp⟩⟩⟩ <;> simp at h3
    rcases pe with _ | ⟨p0, _ | ⟨p1, _ | ⟨p2, pe⟩⟩⟩ <;> simp at h4
    simp [GetFilenameFromParams, filenameSpec, fieldsSpec, dimTag,
      String.intercalate, String.intercalate.go, string_append_assoc]
  · rcases lc with _ | ⟨a0, _ | ⟨a1, _ | ⟨a2, _ | ⟨a3, lc⟩⟩⟩⟩ <;> simp at h1
    rcases uc with _ | ⟨b0, _ | ⟨b1, _ | ⟨b2, _ | ⟨b3, uc⟩⟩⟩⟩ <;> simp at h2
    rcases gp with _ | ⟨g0, _ | ⟨g1, _ | ⟨g2, _ | ⟨g3, gp⟩⟩⟩⟩ <;> simp at h3
    rcases pe with _ | ⟨p0, _ | ⟨p1, _ | ⟨p2, _ | ⟨p3, pe⟩⟩⟩⟩ <;> simp at h4
    simp [GetFilenameFromParams, filenameSpec, fieldsSpec, dimTag,
      String.intercalate, String.intercalate.go, string_append_assoc]

/-- Claim C4 witness: the amended format at the end-to-end example
parameters of the spec. -/
theorem claim4_filename_format_amended_witness :
    GetFilenameFromParams (initState 2 [0, 0] [1, 1] [3, 3] [false, false] 4 (1/2))
      = some (filenameSpec (initState 2 [0, 0] [1, 1] [3, 3] [false, false] 4 (1/2))) :=
  claim4_filename_format_amended (initState 2 [0, 0] [1, 1] [3, 3] [false, false] 4 (1/2))
    (by decide) rfl rfl rfl rfl

end RandomField
